import Mathlib

/-!
Shallow embedding of `interpretability_utils.py` (class `MechanisticInterpreter`)
of the bigquery-adk-code repository. Claim records are Python dicts, modelled
as association lists of key/value pairs in insertion order; numbers are
rationals; every static method of the class becomes a total Lean function.
-/

namespace InsuranceInterp

/-- Values stored in a claim record (the Python dict values the code reads). -/
inductive JVal where
  | str (s : String)
  | num (q : ℚ)
  | boolean (b : Bool)
  | null
deriving DecidableEq

/-- A claim record: a Python dict, given by its key/value pairs in insertion
order. A real dict never repeats a key, so theorems that depend on key
uniqueness carry a `Nodup` hypothesis on the key list. -/
abbrev ClaimDict := List (String × JVal)

/-- Python `claim_data.get(key, default)` for a numeric field. A missing key
yields the default, as in the source. A non-numeric value also falls to the
default here; in the source a non-numeric amount would raise `TypeError` at
the first comparison, a corner no claim exercises (amounts are numeric in the
data model). -/
def getNum (d : ClaimDict) (k : String) (dflt : ℚ) : ℚ :=
  match d.lookup k with
  | some (JVal.num q) => q
  | _ => dflt

/-- Python `claim_data.get(key, default)` for a string field with a string
default (e.g. `get('patient_state', '')`). -/
def getStr (d : ClaimDict) (k : String) (dflt : String) : String :=
  match d.lookup k with
  | some (JVal.str s) => s
  | _ => dflt

/-- Python `claim_data.get(key)` for a string field: `some s` when the key is
present with a string value, `none` when the key is absent (Python `None`). -/
def getOptStr (d : ClaimDict) (k : String) : Option String :=
  match d.lookup k with
  | some (JVal.str s) => some s
  | _ => none

/-- Python `str.upper()` on the ASCII state codes the code compares against. -/
def pyUpper (s : String) : String :=
  String.mk (s.data.map Char.toUpper)

/-- Python `"%.1f"`-style formatting of a nonnegative rational: one digit
after the decimal point, rounding half up at the last digit (the source
formats an IEEE double with round-half-even; no claim exercises a tie). -/
def fixed1 (q : ℚ) : String :=
  let n : ℤ := ⌊q * 10 + 1 / 2⌋
  s!"{n / 10}.{n % 10}"

/-- Python `"%.2f"`-style formatting of a nonnegative rational: two digits
after the decimal point, rounding half up at the last digit. -/
def fixed2 (q : ℚ) : String :=
  let n : ℤ := ⌊q * 100 + 1 / 2⌋
  let frac : ℤ := n % 100
  if frac < 10 then s!"{n / 100}.0{frac}" else s!"{n / 100}.{frac}"

/-- The 50-entry `VALID_STATES` set of `MechanisticInterpreter`. -/
def VALID_STATES : List String :=
  ["AL", "AK", "AZ", "AR", "CA", "CO", "CT", "DE", "FL", "GA",
   "HI", "ID", "IL", "IN", "IA", "KS", "KY", "LA", "ME", "MD",
   "MA", "MI", "MN", "MS", "MO", "MT", "NE", "NV", "NH", "NJ",
   "NM", "NY", "NC", "ND", "OH", "OK", "OR", "PA", "RI", "SC",
   "SD", "TN", "TX", "UT", "VT", "VA", "WA", "WV", "WI", "WY"]

/-- The `valid_procedures` set of `validate_claim_data`. -/
def valid_procedures : List String :=
  ["Virtual Consultation", "Mental Health Session",
   "Prescription Refill", "Follow-up Visit", "Emergency Consult"]

/-- The amount error message of `validate_claim_data`. -/
def errAmount (amount : ℚ) : String :=
  s!"Invalid claim amount: ${amount}. Must be between $1 and $10,000"

/-- The state error message of `validate_claim_data`. -/
def errState (state : String) : String :=
  s!"Invalid state code: {state}"

/-- The procedure error message of `validate_claim_data`. -/
def errProc (procedure : String) : String :=
  s!"Invalid procedure type: {procedure}"

/-- The amount-bounds block of `validate_claim_data`:
`amount = claim_data.get('claim_amount', 0); if not (1 <= amount <= 10000)`. -/
def amountErrors (claim_data : ClaimDict) : List String :=
  let amount := getNum claim_data "claim_amount" 0
  if 1 ≤ amount ∧ amount ≤ 10000 then [] else [errAmount amount]

/-- The state block of `validate_claim_data`:
`state = claim_data.get('patient_state', '').upper(); if state not in VALID_STATES`. -/
def stateErrors (claim_data : ClaimDict) : List String :=
  let state := pyUpper (getStr claim_data "patient_state" "")
  if state ∈ VALID_STATES then [] else [errState state]

/-- The procedure block of `validate_claim_data`:
`procedure = claim_data.get('procedure_type'); if procedure and procedure not in valid_procedures`.
Python truthiness of the string is the `p ≠ ""` test; an absent key (`None`)
is falsy and produces no error. -/
def procedureErrors (claim_data : ClaimDict) : List String :=
  match getOptStr claim_data "procedure_type" with
  | some p => if p ≠ "" ∧ p ∉ valid_procedures then [errProc p] else []
  | none => []

/-- Result dict `{'valid': ..., 'errors': ...}` of `validate_claim_data`. -/
structure ValidationResult where
  valid : Bool
  errors : List String
deriving DecidableEq

/-- `MechanisticInterpreter.validate_claim_data`: the three checks run
unconditionally and their error messages accumulate; `valid` is
`len(errors) == 0`. -/
def validate_claim_data (claim_data : ClaimDict) : ValidationResult :=
  let errors :=
    amountErrors claim_data ++ stateErrors claim_data ++ procedureErrors claim_data
  { valid := errors.length == 0, errors := errors }

/-- The `procedure_norms` reference table of `analyze_claim_features`:
procedure ↦ (avg, std, max_normal). -/
def procedure_norms_analysis : List (String × (ℚ × ℚ × ℚ)) :=
  [("Virtual Consultation", (150, 45, 450)),
   ("Mental Health Session", (200, 60, 600)),
   ("Prescription Refill", (50, 15, 150)),
   ("Follow-up Visit", (120, 36, 360)),
   ("Emergency Consult", (300, 90, 900))]

/-- The `diagnosis_categories` reference table of `analyze_claim_features`. -/
def diagnosis_categories : List (String × List String) :=
  [("Mental Health", ["Anxiety", "Depression", "Insomnia"]),
   ("Physical", ["Hypertension", "Diabetes", "Common Cold", "Back Pain",
                 "Migraine", "Allergies", "Stomach Flu"])]

/-- The `procedure_analysis` sub-dict of `analyze_claim_features`, filled only
when the procedure is in the reference table. -/
structure ProcedureAnalysis where
  expected_range : String
  actual_amount : String
  deviation_sigma : ℚ
  threshold_violation : Bool
deriving DecidableEq

/-- The `diagnosis_analysis` sub-dict of `analyze_claim_features`. -/
structure DiagnosisAnalysis where
  diagnosis_category : String
  typical_procedures : String
deriving DecidableEq

/-- The analysis dict of `analyze_claim_features`. `procedure_analysis` is
`none` when it stays the empty dict; the `amount_analysis` and
`geographic_analysis` entries are initialized to empty dicts and never
written, so they carry no data here. -/
structure FeatureAnalysis where
  procedure_analysis : Option ProcedureAnalysis
  diagnosis_analysis : DiagnosisAnalysis
deriving DecidableEq

/-- `MechanisticInterpreter.analyze_claim_features`. -/
def analyze_claim_features (claim_data : ClaimDict) : FeatureAnalysis :=
  let procedure := getOptStr claim_data "procedure_type"
  let procAnalysis :=
    match procedure.bind (fun p => procedure_norms_analysis.lookup p) with
    | some (avg, std, maxNormal) =>
      let amount := getNum claim_data "claim_amount" 0
      some { expected_range := s!"${avg - std} - ${avg + std}",
             actual_amount := s!"${amount}",
             deviation_sigma := if std > 0 then (amount - avg) / std else 0,
             threshold_violation := amount > maxNormal }
    | none => none
  let diagnosis := getOptStr claim_data "diagnosis"
  let category :=
    ((diagnosis_categories.find? (fun cd =>
        match diagnosis with
        | some dg => dg ∈ cd.2
        | none => false)).map Prod.fst).getD "Unknown"
  { procedure_analysis := procAnalysis,
    diagnosis_analysis :=
      { diagnosis_category := category,
        typical_procedures :=
          "Mental Health procedures typically for Mental Health diagnoses" } }

/-- One rule activation dict of `evaluate_business_rules`. -/
structure RuleActivation where
  rule_id : String
  description : String
  confidence : String
  evidence : String
deriving DecidableEq

/-- The `unusual_combos` list of rule 1. -/
def unusual_combos : List (String × String) :=
  [("Mental Health Session", "Common Cold"),
   ("Mental Health Session", "Back Pain"),
   ("Emergency Consult", "Allergies"),
   ("Emergency Consult", "Common Cold")]

/-- The `procedure_norms` threshold table of rule 2 (`HIGH_AMOUNT`). -/
def procedure_norms : List (String × ℚ) :=
  [("Virtual Consultation", 450),
   ("Mental Health Session", 600),
   ("Prescription Refill", 150),
   ("Follow-up Visit", 360),
   ("Emergency Consult", 900)]

/-- The `restricted_states` list of rule 3. -/
def restricted_states : List String := ["WY", "AK", "MT"]

/-- Rule 1 of `evaluate_business_rules`: unusual diagnosis-procedure
combination. Zero or one activation. -/
def rule_unusual_combo (claim_data : ClaimDict) : Option RuleActivation :=
  match getOptStr claim_data "procedure_type", getOptStr claim_data "diagnosis" with
  | some p, some dg =>
    if (p, dg) ∈ unusual_combos then
      some { rule_id := "UNUSUAL_COMBO",
             description := s!"Unusual combination: {p} + {dg}",
             confidence := "High",
             evidence := "Combination statistically rare in historical data" }
    else none
  | _, _ => none

/-- The `HIGH_AMOUNT` threshold for a claim:
`procedure_norms.get(procedure, float('inf'))`, with `none` standing for the
`float('inf')` default (an amount is never greater than infinity, so `none`
means the rule cannot fire). -/
def highAmountThreshold (claim_data : ClaimDict) : Option ℚ :=
  (getOptStr claim_data "procedure_type").bind (fun p => procedure_norms.lookup p)

/-- Description string of a HIGH_AMOUNT activation. -/
def highAmountDescription (amount threshold : ℚ) : String :=
  s!"Claim amount ${amount} exceeds ${threshold} threshold"

/-- Evidence string of a HIGH_AMOUNT activation:
`f'{amount/threshold*100:.1f}% above expected maximum'`. -/
def highAmountEvidence (amount threshold : ℚ) : String :=
  let pct := fixed1 (amount / threshold * 100)
  s!"{pct}% above expected maximum"

/-- Rule 2 of `evaluate_business_rules`: high claim amount. Zero or one
activation; fires iff `amount > threshold`, confidence
`'High' if amount > threshold * 1.5 else 'Medium'`. -/
def rule_high_amount (claim_data : ClaimDict) : Option RuleActivation :=
  let amount := getNum claim_data "claim_amount" 0
  match highAmountThreshold claim_data with
  | some threshold =>
    if amount > threshold then
      some { rule_id := "HIGH_AMOUNT",
             description := highAmountDescription amount threshold,
             confidence := if amount > threshold * 1.5 then "High" else "Medium",
             evidence := highAmountEvidence amount threshold }
    else none
  | none => none

/-- Unfolding of rule 2 when a threshold is configured. -/
theorem rule_high_amount_of_thresh (d : ClaimDict) (t : ℚ)
    (ht : highAmountThreshold d = some t) :
    rule_high_amount d =
      if getNum d "claim_amount" 0 > t then
        some { rule_id := "HIGH_AMOUNT",
               description := highAmountDescription (getNum d "claim_amount" 0) t,
               confidence :=
                 if getNum d "claim_amount" 0 > t * 1.5 then "High" else "Medium",
               evidence := highAmountEvidence (getNum d "claim_amount" 0) t }
      else none := by
  unfold rule_high_amount
  rw [ht]

/-- Unfolding of rule 2 when no threshold is configured (unknown procedure:
the `float('inf')` default). -/
theorem rule_high_amount_of_nothresh (d : ClaimDict)
    (ht : highAmountThreshold d = none) :
    rule_high_amount d = none := by
  unfold rule_high_amount
  rw [ht]

/-- Rule 3 of `evaluate_business_rules`: geographic mismatch. Zero or one
activation. The raw `patient_state` value is compared (no upper-casing). -/
def rule_geographic (claim_data : ClaimDict) : Option RuleActivation :=
  match getOptStr claim_data "patient_state" with
  | some st =>
    if st ∈ restricted_states ∧ getOptStr claim_data "procedure_type" = some "Virtual Consultation" then
      some { rule_id := "GEOGRAPHIC_RESTRICTION",
             description := s!"Virtual consultation from restricted state: {st}",
             confidence := "High",
             evidence := "State not covered for virtual consultations" }
    else none
  | none => none

/-- `MechanisticInterpreter.evaluate_business_rules`: the three rules are
checked in order and each appends at most one activation to the list. -/
def evaluate_business_rules (claim_data : ClaimDict) : List RuleActivation :=
  (rule_unusual_combo claim_data).toList
    ++ (rule_high_amount claim_data).toList
    ++ (rule_geographic claim_data).toList

/-- `MechanisticInterpreter.trace_decision_pathway`. -/
def trace_decision_pathway (rules_activated : List RuleActivation) : List String :=
  (if rules_activated.any (fun r => r.rule_id == "UNUSUAL_COMBO") then
    ["Primary trigger: Unusual diagnosis-procedure combination"] else [])
  ++ (if rules_activated.any (fun r => r.rule_id == "HIGH_AMOUNT") then
    ["Supporting factor: Abnormally high claim amount"] else [])
  ++ (if rules_activated.any (fun r => r.rule_id == "GEOGRAPHIC_RESTRICTION") then
    ["Geographic constraint violation"] else [])

/-- The `{'level': ..., 'score': ..., 'reason': ...}` dict of `assess_confidence`. -/
structure ConfidenceAssessment where
  level : String
  score : ℚ
  reason : String
deriving DecidableEq

/-- `MechanisticInterpreter.assess_confidence`: score is the count of
High-confidence activations over the total count; thresholds 0.7 and 0.4
pick the level; an empty list short-circuits to score 0, level Low. -/
def assess_confidence (rules_activated : List RuleActivation) : ConfidenceAssessment :=
  let high_conf_rules := rules_activated.countP (fun r => r.confidence == "High")
  let total_rules := rules_activated.length
  if total_rules = 0 then
    { level := "Low", score := 0, reason := "No rules activated" }
  else
    let confidence_score : ℚ := (high_conf_rules : ℚ) / (total_rules : ℚ)
    let level :=
      if confidence_score ≥ 0.7 then "High"
      else if confidence_score ≥ 0.4 then "Medium"
      else "Low"
    { level := level, score := confidence_score,
      reason := s!"{high_conf_rules} high-confidence rules out of {total_rules} total" }

/-- `MechanisticInterpreter.generate_recommendations`. -/
def generate_recommendations (rules_activated : List RuleActivation) : List String :=
  (if rules_activated.any (fun r => r.rule_id == "UNUSUAL_COMBO") then
    ["Review medical necessity of procedure-diagnosis combination"] else [])
  ++ (if rules_activated.any (fun r => r.rule_id == "HIGH_AMOUNT") then
    ["Verify procedure coding and duration justification"] else [])
  ++ (if rules_activated.any (fun r => r.rule_id == "GEOGRAPHIC_RESTRICTION") then
    ["Confirm patient residency and coverage eligibility"] else [])

/-- The `procedure_thresholds` table of `generate_counterfactuals` (only three
procedures have a configured counterfactual threshold). -/
def procedure_thresholds : List (String × ℚ) :=
  [("Virtual Consultation", 450),
   ("Mental Health Session", 600),
   ("Emergency Consult", 900)]

/-- The counterfactual threshold for a claim:
`procedure_thresholds.get(procedure)` (`None` when the procedure is absent or
unconfigured). -/
def counterfactualThreshold (claim_data : ClaimDict) : Option ℚ :=
  (getOptStr claim_data "procedure_type").bind (fun p => procedure_thresholds.lookup p)

/-- The counterfactual sentence: `safe_amount` is formatted `%.2f`, the
current amount is interpolated as is. -/
def counterfactualSentence (safe_amount current_amount : ℚ) : String :=
  let safeStr := fixed2 safe_amount
  s!"If claim amount were ${safeStr} instead of ${current_amount}, this claim would likely not be flagged as an outlier"

/-- `MechanisticInterpreter.generate_counterfactuals`: when a threshold is
configured and truthy (`if threshold` — nonzero) and the amount exceeds it,
emit one sentence with `safe_amount = threshold * 0.9`. -/
def generate_counterfactuals (claim_data : ClaimDict) : List String :=
  let current_amount := getNum claim_data "claim_amount" 0
  match counterfactualThreshold claim_data with
  | some threshold =>
    if threshold ≠ 0 ∧ current_amount > threshold then
      [counterfactualSentence (threshold * 0.9) current_amount]
    else []
  | none => []

/-- Unfolding of the counterfactual generator for a configured threshold. -/
theorem generate_counterfactuals_of_thresh (d : ClaimDict) (t : ℚ)
    (ht : counterfactualThreshold d = some t) :
    generate_counterfactuals d =
      if t ≠ 0 ∧ getNum d "claim_amount" 0 > t then
        [counterfactualSentence (t * 0.9) (getNum d "claim_amount" 0)]
      else [] := by
  unfold generate_counterfactuals
  rw [ht]

/-- Unfolding of the counterfactual generator when no threshold is
configured. -/
theorem generate_counterfactuals_of_nothresh (d : ClaimDict)
    (ht : counterfactualThreshold d = none) :
    generate_counterfactuals d = [] := by
  unfold generate_counterfactuals
  rw [ht]

/-- The report dict of `generate_interpretability_report`. -/
structure InterpretabilityReport where
  claim_id : Option JVal
  feature_analysis : FeatureAnalysis
  rules_activated : List RuleActivation
  decision_pathway : List String
  confidence_assessment : ConfidenceAssessment
  similar_patterns : Nat
  recommendations : List String
  counterfactuals : List String
deriving DecidableEq

/-- `MechanisticInterpreter.generate_interpretability_report`. The
`claim_id` entry is `claim_data.get('claim_id')`: `none` (Python `None`) when
the key is missing — the function is total and never raises. -/
def generate_interpretability_report (claim_data : ClaimDict)
    (similar_claims : List ClaimDict) : InterpretabilityReport :=
  let rules_activated := evaluate_business_rules claim_data
  { claim_id := claim_data.lookup "claim_id",
    feature_analysis := analyze_claim_features claim_data,
    rules_activated := rules_activated,
    decision_pathway := trace_decision_pathway rules_activated,
    confidence_assessment := assess_confidence rules_activated,
    similar_patterns := similar_claims.length,
    recommendations := generate_recommendations rules_activated,
    counterfactuals := generate_counterfactuals claim_data }

/-- One `{'max_rate', 'min_rate', 'ratio'}` sub-dict of the fairness report;
`⊤` models the `float('inf')` ratio used when the minimum rate is 0. -/
structure Disparity where
  max_rate : ℚ
  min_rate : ℚ
  ratio : WithTop ℚ
deriving DecidableEq

/-- Projection of the ` ratio` field (written as a match so every textual use
of the field name sits behind a space). -/
def disparityRatio : Disparity → WithTop ℚ
  | ⟨_, _, r⟩ => r

/-- Pandas `df.groupby(col)['is_outlier'].mean()` over one grouping column:
for each distinct group value, the fraction of rows of that group whose
outlier flag is true. `rows` is the (group value, is_outlier) column pair. -/
def groupRates (rows : List (String × Bool)) : List ℚ :=
  ((rows.map Prod.fst).dedup).map (fun g =>
    let grp := rows.filter (fun r => r.1 == g)
    ((grp.countP (fun r => r.2) : ℕ) : ℚ) / ((grp.length : ℕ) : ℚ))

/-- One dimension of `check_demographic_fairness`: max and min of the group
rates (pandas `.max()`/`.min()`), and
`ratio = max / min if min > 0 else float('inf')`. An empty column set (empty
frame) yields no sub-report. -/
def dimensionDisparity (rows : List (String × Bool)) : Option Disparity :=
  match groupRates rows with
  | [] => none
  | r :: rs =>
    some { max_rate := rs.foldl max r,
           min_rate := rs.foldl min r,
           ratio :=
             if 0 < rs.foldl min r then
               (((rs.foldl max r) / (rs.foldl min r) : ℚ) : WithTop ℚ)
             else ⊤ }

/-- The fairness report dict: each key is present only when the claims frame
has both the `is_outlier` column and the corresponding grouping column. -/
structure FairnessReport where
  state_disparities : Option Disparity
  provider_disparities : Option Disparity
deriving DecidableEq

/-- `MechanisticInterpreter.check_demographic_fairness`. The DataFrame is
modelled per dimension: `some rows` when both the `is_outlier` column and the
grouping column (`patient_state` resp. `provider_name`) are present, with one
(group value, outlier flag) pair per claim; `none` when a column is missing,
in which case the sub-report is omitted exactly as in the source. -/
def check_demographic_fairness (state_rows provider_rows : Option (List (String × Bool))) :
    FairnessReport :=
  { state_disparities := state_rows.bind dimensionDisparity,
    provider_disparities := provider_rows.bind dimensionDisparity }

/-- Python `f'{r:.2f}'` applied to a possibly infinite ratio: an IEEE
infinity formats as "inf". -/
def fmtRatio (r : WithTop ℚ) : String :=
  WithTop.recTopCoe "inf" (fun q => fixed2 q) r

/-- The state alert string of `generate_disparity_alerts`. -/
def stateAlert (r : WithTop ℚ) : String :=
  let v := fmtRatio r
  s!"HIGH DISPARITY: State outlier rates vary by {v}x"

/-- The provider alert string of `generate_disparity_alerts`. -/
def providerAlert (r : WithTop ℚ) : String :=
  let v := fmtRatio r
  s!"HIGH DISPARITY: Provider outlier rates vary by {v}x"

/-- `MechanisticInterpreter.generate_disparity_alerts`: each ratio defaults
to 1.0 when its sub-report is absent
(`fairness_report.get(..., {}).get('ratio', 1.0)`); an alert fires iff the
ratio is strictly above 2.0 (state) resp. 3.0 (provider). -/
def generate_disparity_alerts (fairness_report : FairnessReport) : List String :=
  let state_ratio :=
    (fairness_report.state_disparities.map disparityRatio).getD ((1 : ℚ) : WithTop ℚ)
  let provider_ratio :=
    (fairness_report.provider_disparities.map disparityRatio).getD ((1 : ℚ) : WithTop ℚ)
  (if ((2 : ℚ) : WithTop ℚ) < state_ratio then [stateAlert state_ratio] else [])
  ++ (if ((3 : ℚ) : WithTop ℚ) < provider_ratio then [providerAlert provider_ratio] else [])

/-- Python string `<=` as a Bool: Mathlib's String order, which is the
code-point lexicographic order that `json.dumps(..., sort_keys=True)` sorts
keys by. -/
def strLe (a b : String) : Bool :=
  decide (a ≤ b)

/-- Serialization of one claim value, as `json.dumps` renders it. String
escaping is elided (no claim uses a string that needs escapes). -/
def jvalSerialize : JVal → String
  | JVal.str s => "\"" ++ s ++ "\""
  | JVal.num q => toString q
  | JVal.boolean b => if b then "true" else "false"
  | JVal.null => "null"

/-- `json.dumps(claim_data, sort_keys=True)`: the dict entries are emitted in
ascending key order, each as `"key": value`. -/
def json_dumps_sorted (claim_data : ClaimDict) : String :=
  let keys := (claim_data.map Prod.fst).mergeSort strLe
  "\x7b" ++ String.intercalate ", "
    (keys.map (fun k =>
      "\"" ++ k ++ "\": " ++ jvalSerialize ((claim_data.lookup k).getD JVal.null)))
  ++ "\x7d"

/-- Model of `hashlib.md5(s.encode()).hexdigest()`: an unspecified but fixed
deterministic digest of the serialized byte string. The spec states the exact
algorithm is an implementation choice; only determinism and dependence on the
canonical serialization are contractual, which this model preserves. -/
def md5_hexdigest (s : String) : String :=
  toString (s.foldl (fun h c => (h * 131 + c.toNat) % (2 ^ 64)) 5381)

/-- The audit entry dict of `create_audit_log`. -/
structure AuditEntry where
  timestamp : String
  claim_id : Option JVal
  decision : String
  rules_activated : List String
  confidence_scores : List String
  decision_pathway : List String
  system_version : String
  audit_hash : String
  validation_status : ValidationResult
deriving DecidableEq

/-- `MechanisticInterpreter.create_audit_log`. The wall-clock reading
`datetime.datetime.utcnow().isoformat()` is the one impure step of the
source; it is passed in explicitly as `now`. `claim_id` is
`claim_data.get('claim_id')` (`none` when missing — no error is raised).
`rule.get('confidence', 'Unknown')` always finds the key on an activation
record, so it is the `confidence` field here. -/
def create_audit_log (claim_data : ClaimDict) (rules_activated : List RuleActivation)
    (decision : String) (now : String) : AuditEntry :=
  let data_hash := md5_hexdigest (json_dumps_sorted claim_data)
  { timestamp := now,
    claim_id := claim_data.lookup "claim_id",
    decision := decision,
    rules_activated := rules_activated.map (fun r => r.rule_id),
    confidence_scores := rules_activated.map (fun r => r.confidence),
    decision_pathway := trace_decision_pathway rules_activated,
    system_version := "1.0",
    audit_hash := data_hash,
    validation_status := validate_claim_data claim_data }

/-- Concrete claim: Virtual Consultation for $500 from CA (spec end-to-end
scenario 2): HIGH_AMOUNT fires with Medium confidence and no other rule. -/
def vc500 : ClaimDict :=
  [("claim_id", JVal.str "CLM-001"),
   ("procedure_type", JVal.str "Virtual Consultation"),
   ("claim_amount", JVal.num 500),
   ("patient_state", JVal.str "CA"),
   ("diagnosis", JVal.str "Anxiety")]

/-- Functional update of one key of a claim dict (Python `d[k] = v`):
prepending the pair makes every lookup of `k` see the new value and leaves
every other key unchanged, which is all the analysis functions observe. -/
def dictSet (d : ClaimDict) (k : String) (v : JVal) : ClaimDict :=
  (k, v) :: d

/-- The single HIGH_AMOUNT activation the rule engine emits for `vc500`. -/
def vc500HighAmount : RuleActivation :=
  { rule_id := "HIGH_AMOUNT",
    description := "Claim amount $500 exceeds $450 threshold",
    confidence := "Medium",
    evidence := "111.1% above expected maximum" }

/-- Concrete claim with no `claim_id` key. -/
def noIdClaim : ClaimDict :=
  [("claim_amount", JVal.num 100), ("patient_state", JVal.str "CA")]

/-- Concrete claim violating all three validator checks at once. -/
def badClaim : ClaimDict :=
  [("claim_amount", JVal.num 20000),
   ("patient_state", JVal.str "ZZ"),
   ("procedure_type", JVal.str "Surgery")]

/-- Concrete claim with only a diagnosis: amount, state and procedure keys
are all missing. -/
def bareClaim : ClaimDict :=
  [("diagnosis", JVal.str "Stomach Flu")]

/-- Helper: the rule engine output on `vc500` is exactly the Medium
HIGH_AMOUNT activation (spec end-to-end scenario 2: 500 > 450 but
500 < 675 = 1.5 × 450, and 500/450 × 100 formats as 111.1). -/
theorem evaluate_business_rules_vc500 :
    evaluate_business_rules vc500 = [vc500HighAmount] := by
  have hfloor : ⌊(500 : ℚ) / 450 * 100 * 10 + 1 / 2⌋ = (1111 : ℤ) := by norm_num
  have hth : highAmountThreshold vc500 = some 450 := rfl
  have hamt : getNum vc500 "claim_amount" 0 = 500 := rfl
  have h1 : rule_unusual_combo vc500 = none := by decide
  have h3 : rule_geographic vc500 = none := by decide
  norm_num [evaluate_business_rules, h1, h3, vc500HighAmount,
    rule_high_amount, hth, hamt, fixed1, hfloor,
    highAmountDescription, highAmountEvidence]
  exact ⟨rfl, rfl⟩

/-- C4 counterexample input behaviour: with `claim_id` missing, both report
builders return normally, with the `claim_id` entry silently defaulted to
`None` — no error of any kind is raised (the source reads the field with
`dict.get`, which never throws). -/
theorem missing_claim_id_no_failure :
    (generate_interpretability_report noIdClaim []).claim_id = none ∧
    (create_audit_log noIdClaim [] "REVIEW" "2026-01-01T00:00:00").claim_id = none :=
  ⟨rfl, rfl⟩

/-- C4 (amended): for every claim record missing `claim_id`, producing a
DecisionReport or AuditRecord succeeds and silently defaults the `claim_id`
entry to `None`; the core never raises for a missing `claim_id`. -/
theorem missing_claim_id_defaults_to_none (d : ClaimDict) (sc : List ClaimDict)
    (r : List RuleActivation) (dec now : String) (h : d.lookup "claim_id" = none) :
    (generate_interpretability_report d sc).claim_id = none ∧
    (create_audit_log d r dec now).claim_id = none :=
  ⟨h, h⟩

/-- Witness for `missing_claim_id_defaults_to_none` at the concrete claim
`noIdClaim`. -/
theorem missing_claim_id_defaults_witness :
    noIdClaim.lookup "claim_id" = none ∧
    (generate_interpretability_report noIdClaim [vc500]).claim_id = none ∧
    (create_audit_log noIdClaim [] "REVIEW" "t0").claim_id = none := by
  have h := missing_claim_id_defaults_to_none noIdClaim [vc500] [] "REVIEW" "t0" (by decide)
  exact ⟨by decide, h.1, h.2⟩

/-- C8: the validator returns `valid = true` iff its error list is empty,
and accumulates every violated check: an out-of-bounds amount always
contributes its error message, as do a bad state code and a bad procedure
type, independently of each other. -/
theorem validator_accumulates (d : ClaimDict) :
    ((validate_claim_data d).valid = true ↔ (validate_claim_data d).errors = []) ∧
    (¬(1 ≤ getNum d "claim_amount" 0 ∧ getNum d "claim_amount" 0 ≤ 10000) →
      errAmount (getNum d "claim_amount" 0) ∈ (validate_claim_data d).errors) ∧
    (pyUpper (getStr d "patient_state" "") ∉ VALID_STATES →
      errState (pyUpper (getStr d "patient_state" "")) ∈ (validate_claim_data d).errors) ∧
    (∀ p, getOptStr d "procedure_type" = some p → p ≠ "" → p ∉ valid_procedures →
      errProc p ∈ (validate_claim_data d).errors) := by
  refine ⟨?_, ?_, ?_, ?_⟩
  · simp [validate_claim_data, List.length_eq_zero]
  · intro h
    simp [validate_claim_data, amountErrors, h]
  · intro h
    simp [validate_claim_data, stateErrors, h]
  · intro p hp hne hnotin
    simp [validate_claim_data, procedureErrors, hp, hne, hnotin]

/-- Witness for `validator_accumulates` at `badClaim`: all three errors
accumulate and the claim is invalid. -/
theorem validator_accumulates_witness :
    errAmount 20000 ∈ (validate_claim_data badClaim).errors ∧
    errState "ZZ" ∈ (validate_claim_data badClaim).errors ∧
    errProc "Surgery" ∈ (validate_claim_data badClaim).errors ∧
    (validate_claim_data badClaim).valid = false := by
  obtain ⟨-, h2, h3, h4⟩ := validator_accumulates badClaim
  refine ⟨h2 (by decide), h3 (by decide), h4 "Surgery" (by decide) (by decide) (by decide),
    by decide⟩

/-- C10: a claim without `claim_amount` is validated as amount 0 and gets the
amount error; one without `patient_state` gets the state error for the empty
code; a missing or empty `procedure_type` contributes no error at all. -/
theorem missing_field_validation (d : ClaimDict) :
    (d.lookup "claim_amount" = none →
      getNum d "claim_amount" 0 = 0 ∧ errAmount 0 ∈ (validate_claim_data d).errors) ∧
    (d.lookup "patient_state" = none →
      errState "" ∈ (validate_claim_data d).errors) ∧
    ((d.lookup "procedure_type" = none ∨ d.lookup "procedure_type" = some (JVal.str "")) →
      procedureErrors d = [] ∧
      (validate_claim_data d).errors = amountErrors d ++ stateErrors d) := by
  refine ⟨?_, ?_, ?_⟩
  · intro h
    have hz : getNum d "claim_amount" 0 = 0 := by simp [getNum, h]
    refine ⟨hz, ?_⟩
    have : ¬(1 ≤ getNum d "claim_amount" 0 ∧ getNum d "claim_amount" 0 ≤ 10000) := by
      rw [hz]; norm_num
    have hm := (validator_accumulates d).2.1 this
    rwa [hz] at hm
  · intro h
    have hs : getStr d "patient_state" "" = "" := by simp [getStr, h]
    have hup : pyUpper (getStr d "patient_state" "") = "" := by rw [hs]; rfl
    have : pyUpper (getStr d "patient_state" "") ∉ VALID_STATES := by
      rw [hup]; decide
    have hm := (validator_accumulates d).2.2.1 this
    rwa [hup] at hm
  · intro h
    have hp : procedureErrors d = [] := by
      rcases h with h | h <;> simp [procedureErrors, getOptStr, h]
    exact ⟨hp, by simp [validate_claim_data, hp]⟩

/-- Witness for `missing_field_validation` at `bareClaim`, which misses all
three fields. -/
theorem missing_field_validation_witness :
    getNum bareClaim "claim_amount" 0 = 0 ∧
    errAmount 0 ∈ (validate_claim_data bareClaim).errors ∧
    errState "" ∈ (validate_claim_data bareClaim).errors ∧
    procedureErrors bareClaim = [] := by
  obtain ⟨h1, h2, h3⟩ := missing_field_validation bareClaim
  obtain ⟨ha, hb⟩ := h1 (by decide)
  exact ⟨ha, hb, h2 (by decide), (h3 (Or.inl (by decide))).1⟩

/-- Concrete claim: Mental Health Session billed for a Common Cold (spec
end-to-end scenario 1): only UNUSUAL_COMBO fires. -/
def comboClaim : ClaimDict :=
  [("claim_id", JVal.str "CLM-002"),
   ("procedure_type", JVal.str "Mental Health Session"),
   ("diagnosis", JVal.str "Common Cold"),
   ("claim_amount", JVal.num 200),
   ("patient_state", JVal.str "CA")]

/-- Helper: any activation rule 1 emits carries rule_id UNUSUAL_COMBO. -/
theorem rule_unusual_combo_id (d : ClaimDict) (a : RuleActivation)
    (h : rule_unusual_combo d = some a) : a.rule_id = "UNUSUAL_COMBO" := by
  unfold rule_unusual_combo at h
  split at h
  · split_ifs at h
    simp only [Option.some.injEq] at h
    subst h
    rfl
  · exact Option.noConfusion h

/-- Helper: any activation rule 2 emits carries rule_id HIGH_AMOUNT. -/
theorem rule_high_amount_id (d : ClaimDict) (a : RuleActivation)
    (h : rule_high_amount d = some a) : a.rule_id = "HIGH_AMOUNT" := by
  cases ht : highAmountThreshold d with
  | none =>
    rw [rule_high_amount_of_nothresh d ht] at h
    exact Option.noConfusion h
  | some t =>
    rw [rule_high_amount_of_thresh d t ht] at h
    by_cases hgt : getNum d "claim_amount" 0 > t
    · rw [if_pos hgt] at h
      simp only [Option.some.injEq] at h
      subst h
      rfl
    · rw [if_neg hgt] at h
      exact Option.noConfusion h

/-- Helper: any activation rule 3 emits carries rule_id GEOGRAPHIC_RESTRICTION. -/
theorem rule_geographic_id (d : ClaimDict) (a : RuleActivation)
    (h : rule_geographic d = some a) : a.rule_id = "GEOGRAPHIC_RESTRICTION" := by
  unfold rule_geographic at h
  split at h
  · split_ifs at h
    simp only [Option.some.injEq] at h
    subst h
    rfl
  · exact Option.noConfusion h

/-- Helper: rule 2 emits an activation iff a threshold is configured for the
claim's procedure and the amount strictly exceeds it. -/
theorem rule_high_amount_some_iff (d : ClaimDict) :
    (∃ a, rule_high_amount d = some a) ↔
      ∃ t, highAmountThreshold d = some t ∧ getNum d "claim_amount" 0 > t := by
  cases ht : highAmountThreshold d with
  | none =>
    rw [rule_high_amount_of_nothresh d ht]
    simp
  | some t =>
    rw [rule_high_amount_of_thresh d t ht]
    by_cases hgt : getNum d "claim_amount" 0 > t
    · rw [if_pos hgt]
      simp [hgt]
    · rw [if_neg hgt]
      simp [hgt]

/-- Helper: the confidence of a rule-2 activation is High iff the amount is
more than 1.5 times the threshold, else Medium. -/
theorem rule_high_amount_confidence (d : ClaimDict) (a : RuleActivation) (t : ℚ)
    (ht : highAmountThreshold d = some t) (h : rule_high_amount d = some a) :
    a.confidence = if getNum d "claim_amount" 0 > t * 1.5 then "High" else "Medium" := by
  rw [rule_high_amount_of_thresh d t ht] at h
  by_cases hgt : getNum d "claim_amount" 0 > t
  · rw [if_pos hgt] at h
    simp only [Option.some.injEq] at h
    subst h
    rfl
  · rw [if_neg hgt] at h
    exact Option.noConfusion h

/-- Helper: an element of the engine's output with rule_id HIGH_AMOUNT is
exactly an output of rule 2. -/
theorem mem_rules_high_amount (d : ClaimDict) (a : RuleActivation) :
    (a ∈ evaluate_business_rules d ∧ a.rule_id = "HIGH_AMOUNT") ↔
      rule_high_amount d = some a := by
  constructor
  · rintro ⟨hm, hid⟩
    unfold evaluate_business_rules at hm
    simp only [List.mem_append, Option.mem_toList, Option.mem_def] at hm
    rcases hm with (h | h) | h
    · rw [rule_unusual_combo_id d a h] at hid
      exact absurd hid (by decide)
    · exact h
    · rw [rule_geographic_id d a h] at hid
      exact absurd hid (by decide)
  · intro h
    refine ⟨?_, rule_high_amount_id d a h⟩
    unfold evaluate_business_rules
    simp [h]

/-- Helper: when rule 2 emits nothing, no activation in the output carries
rule_id HIGH_AMOUNT. -/
theorem no_high_amount_of_none (d : ClaimDict) (h : rule_high_amount d = none) :
    ∀ a ∈ evaluate_business_rules d, a.rule_id ≠ "HIGH_AMOUNT" := by
  intro a ha hid
  have := (mem_rules_high_amount d a).mp ⟨ha, hid⟩
  rw [h] at this
  exact Option.noConfusion this

/-- C5: the HIGH_AMOUNT rule activates iff the claim amount strictly exceeds
the max_normal threshold of the claim's procedure; with no configured
threshold (the `float('inf')` default for an unknown procedure) the rule
never fires; the activation's confidence is High iff the amount exceeds 1.5
times the threshold, else Medium. -/
theorem high_amount_rule_characterization (d : ClaimDict) :
    ((∃ a ∈ evaluate_business_rules d, a.rule_id = "HIGH_AMOUNT") ↔
      ∃ t, highAmountThreshold d = some t ∧ getNum d "claim_amount" 0 > t) ∧
    (highAmountThreshold d = none →
      ∀ a ∈ evaluate_business_rules d, a.rule_id ≠ "HIGH_AMOUNT") ∧
    (∀ a ∈ evaluate_business_rules d, a.rule_id = "HIGH_AMOUNT" →
      ∀ t, highAmountThreshold d = some t →
        a.confidence = if getNum d "claim_amount" 0 > t * 1.5 then "High" else "Medium") := by
  refine ⟨?_, ?_, ?_⟩
  · rw [← rule_high_amount_some_iff]
    constructor
    · rintro ⟨a, ha, hid⟩
      exact ⟨a, (mem_rules_high_amount d a).mp ⟨ha, hid⟩⟩
    · rintro ⟨a, ha⟩
      obtain ⟨hm, hid⟩ := (mem_rules_high_amount d a).mpr ha
      exact ⟨a, hm, hid⟩
  · intro hn a ha hid
    have := (mem_rules_high_amount d a).mp ⟨ha, hid⟩
    rw [rule_high_amount_of_nothresh d hn] at this
    exact Option.noConfusion this
  · intro a ha hid t ht
    exact rule_high_amount_confidence d a t ht ((mem_rules_high_amount d a).mp ⟨ha, hid⟩)

/-- Witness for `high_amount_rule_characterization` at `vc500`: the rule
fires (500 > 450) and its confidence is Medium (500 ≤ 675). -/
theorem high_amount_rule_witness :
    (∃ a ∈ evaluate_business_rules vc500, a.rule_id = "HIGH_AMOUNT") ∧
    vc500HighAmount.confidence = "Medium" := by
  have h := high_amount_rule_characterization vc500
  refine ⟨h.1.mpr ⟨450, rfl, by decide⟩, ?_⟩
  have hm : vc500HighAmount ∈ evaluate_business_rules vc500 := by
    rw [evaluate_business_rules_vc500]
    exact List.mem_singleton.mpr rfl
  have hc := h.2.2 vc500HighAmount hm rfl 450 rfl
  have hamt : getNum vc500 "claim_amount" 0 = 500 := rfl
  rw [hc, hamt]
  norm_num

/-- C1 counterexample: the rule-engine output for `vc500` is nonempty (one
Medium HIGH_AMOUNT activation) yet its confidence score is exactly 0, so
"score = 0 iff no rules activated" fails as stated. -/
theorem confidence_score_zero_on_nonempty :
    evaluate_business_rules vc500 ≠ [] ∧
    (assess_confidence (evaluate_business_rules vc500)).score = 0 := by
  rw [evaluate_business_rules_vc500]
  refine ⟨by simp, ?_⟩
  have hc : ([vc500HighAmount].countP (fun r => r.confidence == "High")) = 0 := by decide
  have hl : ([vc500HighAmount].length) = 1 := rfl
  norm_num [assess_confidence, hc, hl]

/-- C1 (amended): the confidence score always lies in [0,1], and it is
exactly 0 iff the activation list contains no High-confidence activation —
in particular it is 0 for the empty list, but a nonempty list of only
non-High activations also scores 0. -/
theorem confidence_score_range_and_zero_iff (rules : List RuleActivation) :
    0 ≤ (assess_confidence rules).score ∧
    (assess_confidence rules).score ≤ 1 ∧
    ((assess_confidence rules).score = 0 ↔
      rules.countP (fun r => r.confidence == "High") = 0) := by
  unfold assess_confidence
  by_cases h : rules.length = 0
  · have hnil : rules = [] := List.length_eq_zero.mp h
    subst hnil
    simp
  · rw [if_neg h]
    have hle : rules.countP (fun r => r.confidence == "High") ≤ rules.length :=
      List.countP_le_length _
    have hpos : 0 < (rules.length : ℚ) := by
      have : 0 < rules.length := Nat.pos_of_ne_zero h
      exact_mod_cast this
    refine ⟨div_nonneg (by positivity) hpos.le, ?_, ?_⟩
    · rw [div_le_one hpos]
      exact_mod_cast hle
    · rw [div_eq_zero_iff]
      constructor
      · rintro (hc | hc)
        · exact_mod_cast hc
        · exact absurd hc hpos.ne.symm
      · intro hc
        left
        exact_mod_cast hc

/-- C2: at the failing input `vc500` (amount 500, threshold 450) the evidence
string reads "111.1% above expected maximum" — the code formats
`amount/threshold*100` — while the percentage above the threshold,
`(amount/threshold - 1) * 100`, formats as "11.1". -/
theorem high_amount_evidence_mismatch :
    ((evaluate_business_rules vc500).map (fun r => r.evidence))
        = ["111.1% above expected maximum"] ∧
    fixed1 ((500 / 450 - 1) * 100) = "11.1" ∧
    "111.1% above expected maximum" ≠ "11.1% above expected maximum" := by
  refine ⟨by rw [evaluate_business_rules_vc500]; rfl, ?_, by decide⟩
  have hfloor : ⌊((500 : ℚ) / 450 - 1) * 100 * 10 + 1 / 2⌋ = (111 : ℤ) := by norm_num
  simp only [fixed1, hfloor]
  rfl

/-- C9: the rule engine emits at most one activation per rule, only the three
known rule ids, at most three activations, and always in the fixed order
UNUSUAL_COMBO, HIGH_AMOUNT, GEOGRAPHIC_RESTRICTION (the id list is a sublist
of that canonical order). -/
theorem rule_engine_output_shape (d : ClaimDict) :
    ((evaluate_business_rules d).map (fun r => r.rule_id)).Sublist
      ["UNUSUAL_COMBO", "HIGH_AMOUNT", "GEOGRAPHIC_RESTRICTION"] ∧
    (evaluate_business_rules d).length ≤ 3 ∧
    (∀ a ∈ evaluate_business_rules d,
      a.rule_id = "UNUSUAL_COMBO" ∨ a.rule_id = "HIGH_AMOUNT" ∨
        a.rule_id = "GEOGRAPHIC_RESTRICTION") ∧
    (∀ rid : String,
      ((evaluate_business_rules d).map (fun r => r.rule_id)).count rid ≤ 1) := by
  have h1 : ((rule_unusual_combo d).toList.map (fun r => r.rule_id)).Sublist
      ["UNUSUAL_COMBO"] := by
    cases h : rule_unusual_combo d with
    | none => simp
    | some a => simp [rule_unusual_combo_id d a h]
  have h2 : ((rule_high_amount d).toList.map (fun r => r.rule_id)).Sublist
      ["HIGH_AMOUNT"] := by
    cases h : rule_high_amount d with
    | none => simp
    | some a => simp [rule_high_amount_id d a h]
  have h3 : ((rule_geographic d).toList.map (fun r => r.rule_id)).Sublist
      ["GEOGRAPHIC_RESTRICTION"] := by
    cases h : rule_geographic d with
    | none => simp
    | some a => simp [rule_geographic_id d a h]
  have hsub : ((evaluate_business_rules d).map (fun r => r.rule_id)).Sublist
      ["UNUSUAL_COMBO", "HIGH_AMOUNT", "GEOGRAPHIC_RESTRICTION"] := by
    unfold evaluate_business_rules
    rw [List.map_append, List.map_append]
    exact (h1.append h2).append h3
  refine ⟨hsub, ?_, ?_, ?_⟩
  · have hlen := hsub.length_le
    simpa using hlen
  · intro a ha
    have hm : a.rule_id ∈ (evaluate_business_rules d).map (fun r => r.rule_id) :=
      List.mem_map_of_mem _ ha
    have := hsub.subset hm
    simpa using this
  · intro rid
    calc ((evaluate_business_rules d).map (fun r => r.rule_id)).count rid
        ≤ (["UNUSUAL_COMBO", "HIGH_AMOUNT", "GEOGRAPHIC_RESTRICTION"]).count rid :=
          hsub.count_le rid
      _ ≤ 1 := List.nodup_iff_count_le_one.mp (by decide) rid

/-- Witness for `rule_engine_output_shape` at the concrete claim
`comboClaim`. -/
theorem rule_engine_output_shape_witness :
    ((evaluate_business_rules comboClaim).map (fun r => r.rule_id)).count
      "UNUSUAL_COMBO" ≤ 1 ∧
    (evaluate_business_rules comboClaim).length ≤ 3 := by
  have h := rule_engine_output_shape comboClaim
  exact ⟨h.2.2.2 "UNUSUAL_COMBO", h.2.1⟩

/-- Helper: a key of the counterfactual threshold table is also a key of the
rule-2 norms table, with the same (positive) threshold value. -/
theorem procedure_thresholds_sub_norms (p : String) (t : ℚ)
    (h : procedure_thresholds.lookup p = some t) :
    procedure_norms.lookup p = some t ∧ 0 < t := by
  cases hb1 : (p == "Virtual Consultation") with
  | true =>
    have hp := eq_of_beq hb1
    subst hp
    rw [show procedure_thresholds.lookup "Virtual Consultation" = some (450 : ℚ) from rfl] at h
    simp only [Option.some.injEq] at h
    subst h
    exact ⟨rfl, by norm_num⟩
  | false =>
    cases hb2 : (p == "Mental Health Session") with
    | true =>
      have hp := eq_of_beq hb2
      subst hp
      rw [show procedure_thresholds.lookup "Mental Health Session" = some (600 : ℚ) from rfl] at h
      simp only [Option.some.injEq] at h
      subst h
      exact ⟨rfl, by norm_num⟩
    | false =>
      cases hb3 : (p == "Emergency Consult") with
      | true =>
        have hp := eq_of_beq hb3
        subst hp
        rw [show procedure_thresholds.lookup "Emergency Consult" = some (900 : ℚ) from rfl] at h
        simp only [Option.some.injEq] at h
        subst h
        exact ⟨rfl, by norm_num⟩
      | false =>
        simp only [procedure_thresholds, List.lookup, hb1, hb2, hb3] at h
        exact Option.noConfusion h

/-- Helper: a configured counterfactual threshold is also the claim's
HIGH_AMOUNT threshold, and is positive. -/
theorem counterfactual_thresh_props (d : ClaimDict) (t : ℚ)
    (h : counterfactualThreshold d = some t) :
    highAmountThreshold d = some t ∧ 0 < t := by
  unfold counterfactualThreshold at h
  unfold highAmountThreshold
  cases hp : getOptStr d "procedure_type" with
  | none =>
    rw [hp] at h
    exact Option.noConfusion h
  | some p =>
    rw [hp] at h
    simp only [Option.some_bind] at h ⊢
    obtain ⟨h1, h2⟩ := procedure_thresholds_sub_norms p t h
    exact ⟨h1, h2⟩

/-- Helper: updating one key leaves the string read of another key unchanged. -/
theorem getOptStr_dictSet_ne (d : ClaimDict) (k k2 : String) (v : JVal)
    (h : (k2 == k) = false) :
    getOptStr (dictSet d k v) k2 = getOptStr d k2 := by
  simp [getOptStr, dictSet, List.lookup, h]

/-- Helper: the amount read of a dict whose amount was just set. -/
theorem getNum_dictSet_self (d : ClaimDict) (k : String) (q dflt : ℚ) :
    getNum (dictSet d k (JVal.num q)) k dflt = q := by
  simp [getNum, dictSet, List.lookup]

/-- C6: the counterfactual generator emits exactly one counterfactual iff the
claim's procedure has a configured counterfactual threshold and the amount
exceeds it; the suggested safe amount `threshold * 0.9` is strictly below the
threshold, and substituting it for `claim_amount` leaves a claim on which the
HIGH_AMOUNT rule does not fire. -/
theorem counterfactual_characterization (d : ClaimDict) :
    ((generate_counterfactuals d).length = 1 ↔
      ∃ t, counterfactualThreshold d = some t ∧ getNum d "claim_amount" 0 > t) ∧
    (generate_counterfactuals d = [] ∨ (generate_counterfactuals d).length = 1) ∧
    (∀ t, counterfactualThreshold d = some t → getNum d "claim_amount" 0 > t →
      t * 0.9 < t ∧
      generate_counterfactuals d
        = [counterfactualSentence (t * 0.9) (getNum d "claim_amount" 0)] ∧
      (∀ a ∈ evaluate_business_rules (dictSet d "claim_amount" (JVal.num (t * 0.9))),
        a.rule_id ≠ "HIGH_AMOUNT")) := by
  cases ht : counterfactualThreshold d with
  | none =>
    rw [generate_counterfactuals_of_nothresh d ht]
    refine ⟨by simp, Or.inl rfl, ?_⟩
    intro t ht2
    exact absurd ht2 (by simp)
  | some t =>
    obtain ⟨hnorm, hpos⟩ := counterfactual_thresh_props d t ht
    have ht0 : t ≠ 0 := ne_of_gt hpos
    rw [generate_counterfactuals_of_thresh d t ht]
    by_cases hgt : getNum d "claim_amount" 0 > t
    · rw [if_pos ⟨ht0, hgt⟩]
      refine ⟨by simp [hgt], Or.inr rfl, ?_⟩
      intro t2 ht2 hgt2
      simp only [Option.some.injEq] at ht2
      subst ht2
      have hsafe : t * 0.9 < t := by
        have := mul_lt_mul_of_pos_left (show (0.9 : ℚ) < 1 by norm_num) hpos
        simpa using this
      refine ⟨hsafe, rfl, ?_⟩
      apply no_high_amount_of_none
      have hth2 : highAmountThreshold (dictSet d "claim_amount" (JVal.num (t * 0.9)))
          = some t := by
        unfold highAmountThreshold
        rw [getOptStr_dictSet_ne d "claim_amount" "procedure_type" _ (by decide)]
        exact hnorm
      rw [rule_high_amount_of_thresh _ t hth2,
        getNum_dictSet_self d "claim_amount" (t * 0.9) 0]
      rw [if_neg (not_lt.mpr hsafe.le)]
    · rw [if_neg (fun hc => hgt hc.2)]
      refine ⟨by simp [hgt], Or.inl rfl, ?_⟩
      intro t2 ht2 hgt2
      simp only [Option.some.injEq] at ht2
      subst ht2
      exact absurd hgt2 hgt

/-- Witness for `counterfactual_characterization` at `vc500`: one
counterfactual with safe amount 405 < 450, and the substituted claim does not
trigger HIGH_AMOUNT. -/
theorem counterfactual_characterization_witness :
    (generate_counterfactuals vc500).length = 1 ∧
    (450 : ℚ) * 0.9 < 450 ∧
    (∀ a ∈ evaluate_business_rules (dictSet vc500 "claim_amount" (JVal.num (450 * 0.9))),
      a.rule_id ≠ "HIGH_AMOUNT") := by
  have h := counterfactual_characterization vc500
  have h3 := h.2.2 450 rfl (by decide)
  exact ⟨h.1.mpr ⟨450, rfl, by decide⟩, h3.1, h3.2.2⟩

/-- Helper: folding max over a list yields a member of the start-value cons
the list. -/
theorem foldl_max_mem (l : List ℚ) (a : ℚ) : l.foldl max a ∈ a :: l := by
  induction l generalizing a with
  | nil => simp
  | cons b l ih =>
    simp only [List.foldl_cons]
    rcases List.mem_cons.mp (ih (max a b)) with h | h
    · rcases max_choice a b with hm | hm
      · rw [h, hm]
        exact List.mem_cons_self _ _
      · rw [h, hm]
        exact List.mem_cons_of_mem _ (List.mem_cons_self _ _)
    · exact List.mem_cons_of_mem _ (List.mem_cons_of_mem _ h)

/-- Helper: folding max bounds every element of the start-value cons the
list from above. -/
theorem le_foldl_max (l : List ℚ) (a : ℚ) : ∀ x ∈ a :: l, x ≤ l.foldl max a := by
  induction l generalizing a with
  | nil =>
    intro x hx
    simp only [List.mem_singleton] at hx
    simp [hx]
  | cons b l ih =>
    intro x hx
    simp only [List.foldl_cons]
    rcases List.mem_cons.mp hx with rfl | hx2
    · exact le_trans (le_max_left x b) (ih (max x b) _ (List.mem_cons_self _ _))
    · rcases List.mem_cons.mp hx2 with rfl | hx3
      · exact le_trans (le_max_right a x) (ih (max a x) _ (List.mem_cons_self _ _))
      · exact ih (max a b) x (List.mem_cons_of_mem _ hx3)

/-- Helper: folding min over a list yields a member of the start-value cons
the list. -/
theorem foldl_min_mem (l : List ℚ) (a : ℚ) : l.foldl min a ∈ a :: l := by
  induction l generalizing a with
  | nil => simp
  | cons b l ih =>
    simp only [List.foldl_cons]
    rcases List.mem_cons.mp (ih (min a b)) with h | h
    · rcases min_choice a b with hm | hm
      · rw [h, hm]
        exact List.mem_cons_self _ _
      · rw [h, hm]
        exact List.mem_cons_of_mem _ (List.mem_cons_self _ _)
    · exact List.mem_cons_of_mem _ (List.mem_cons_of_mem _ h)

/-- Helper: folding min bounds every element of the start-value cons the
list from below. -/
theorem foldl_min_le (l : List ℚ) (a : ℚ) : ∀ x ∈ a :: l, l.foldl min a ≤ x := by
  induction l generalizing a with
  | nil =>
    intro x hx
    simp only [List.mem_singleton] at hx
    simp [hx]
  | cons b l ih =>
    intro x hx
    simp only [List.foldl_cons]
    rcases List.mem_cons.mp hx with rfl | hx2
    · exact le_trans (ih (min x b) _ (List.mem_cons_self _ _)) (min_le_left x b)
    · rcases List.mem_cons.mp hx2 with rfl | hx3
      · exact le_trans (ih (min a x) _ (List.mem_cons_self _ _)) (min_le_right a x)
      · exact ih (min a b) x (List.mem_cons_of_mem _ hx3)

/-- Helper: on a nonempty batch a dimension sub-report exists; its max and
min are attained group rates bounding all group rates, and its ratio is
max/min for a positive min and infinity otherwise. -/
theorem dimensionDisparity_of_ne_nil (rows : List (String × Bool)) (h : rows ≠ []) :
    ∃ sd, dimensionDisparity rows = some sd ∧
      sd.max_rate ∈ groupRates rows ∧ (∀ x ∈ groupRates rows, x ≤ sd.max_rate) ∧
      sd.min_rate ∈ groupRates rows ∧ (∀ x ∈ groupRates rows, sd.min_rate ≤ x) ∧
      disparityRatio sd =
        (if 0 < sd.min_rate then ((sd.max_rate / sd.min_rate : ℚ) : WithTop ℚ) else ⊤) := by
  have hg : groupRates rows ≠ [] := by
    unfold groupRates
    simp only [ne_eq, List.map_eq_nil_iff, List.dedup_eq_nil, List.map_eq_nil_iff]
    exact h
  obtain ⟨r, rs, hcons⟩ := List.exists_cons_of_ne_nil hg
  refine ⟨⟨rs.foldl max r, rs.foldl min r,
    if 0 < rs.foldl min r then (((rs.foldl max r) / (rs.foldl min r) : ℚ) : WithTop ℚ)
    else ⊤⟩, ?_, ?_, ?_, ?_, ?_, rfl⟩
  · unfold dimensionDisparity
    rw [hcons]
  · rw [hcons]
    exact foldl_max_mem rs r
  · rw [hcons]
    exact le_foldl_max rs r
  · rw [hcons]
    exact foldl_min_mem rs r
  · rw [hcons]
    exact foldl_min_le rs r

/-- C7: over a nonempty batch, each fairness dimension reports max and min
group outlier rates with ratio = max/min when min > 0 and infinity when
min = 0 (never a division error); alerts fire iff the ratio strictly exceeds
the multiplier (2.0 state, 3.0 provider); when all groups share one nonzero
rate the ratio is 1.0 and no alert fires. -/
theorem fairness_ratio_and_alerts (srows prows : List (String × Bool))
    (hs : srows ≠ []) (hp : prows ≠ []) :
    ∃ sd pd,
      (check_demographic_fairness (some srows) (some prows)).state_disparities = some sd ∧
      (check_demographic_fairness (some srows) (some prows)).provider_disparities = some pd ∧
      sd.max_rate ∈ groupRates srows ∧ (∀ x ∈ groupRates srows, x ≤ sd.max_rate) ∧
      sd.min_rate ∈ groupRates srows ∧ (∀ x ∈ groupRates srows, sd.min_rate ≤ x) ∧
      disparityRatio sd =
        (if 0 < sd.min_rate then ((sd.max_rate / sd.min_rate : ℚ) : WithTop ℚ) else ⊤) ∧
      generate_disparity_alerts (check_demographic_fairness (some srows) (some prows))
        = (if ((2 : ℚ) : WithTop ℚ) < disparityRatio sd
            then [stateAlert (disparityRatio sd)] else [])
          ++ (if ((3 : ℚ) : WithTop ℚ) < disparityRatio pd
            then [providerAlert (disparityRatio pd)] else []) ∧
      (∀ r : ℚ, 0 < r → (∀ x ∈ groupRates srows, x = r) →
        disparityRatio sd = ((1 : ℚ) : WithTop ℚ)) ∧
      (∀ r r2 : ℚ, 0 < r → 0 < r2 → (∀ x ∈ groupRates srows, x = r) →
        (∀ x ∈ groupRates prows, x = r2) →
        generate_disparity_alerts
          (check_demographic_fairness (some srows) (some prows)) = []) := by
  obtain ⟨sd, hsd, hmaxm, hmaxle, hminm, hminle, hratio⟩ :=
    dimensionDisparity_of_ne_nil srows hs
  obtain ⟨pd, hpd, hmaxm2, hmaxle2, hminm2, hminle2, hratio2⟩ :=
    dimensionDisparity_of_ne_nil prows hp
  have hrs : (check_demographic_fairness (some srows) (some prows)).state_disparities
      = some sd := by
    simp [check_demographic_fairness, hsd]
  have hrp : (check_demographic_fairness (some srows) (some prows)).provider_disparities
      = some pd := by
    simp [check_demographic_fairness, hpd]
  have halerts : generate_disparity_alerts
      (check_demographic_fairness (some srows) (some prows))
      = (if ((2 : ℚ) : WithTop ℚ) < disparityRatio sd
          then [stateAlert (disparityRatio sd)] else [])
        ++ (if ((3 : ℚ) : WithTop ℚ) < disparityRatio pd
          then [providerAlert (disparityRatio pd)] else []) := by
    unfold generate_disparity_alerts
    rw [hrs, hrp]
    rfl
  have honeS : ∀ r : ℚ, 0 < r → (∀ x ∈ groupRates srows, x = r) →
      disparityRatio sd = ((1 : ℚ) : WithTop ℚ) := by
    intro r hr hconst
    have hmax : sd.max_rate = r := hconst _ hmaxm
    have hmin : sd.min_rate = r := hconst _ hminm
    rw [hratio, hmin, hmax, if_pos hr]
    exact congrArg (fun q : ℚ => (q : WithTop ℚ)) (div_self (ne_of_gt hr))
  have honeP : ∀ r : ℚ, 0 < r → (∀ x ∈ groupRates prows, x = r) →
      disparityRatio pd = ((1 : ℚ) : WithTop ℚ) := by
    intro r hr hconst
    have hmax : pd.max_rate = r := hconst _ hmaxm2
    have hmin : pd.min_rate = r := hconst _ hminm2
    rw [hratio2, hmin, hmax, if_pos hr]
    exact congrArg (fun q : ℚ => (q : WithTop ℚ)) (div_self (ne_of_gt hr))
  refine ⟨sd, pd, hrs, hrp, hmaxm, hmaxle, hminm, hminle, hratio, halerts, honeS, ?_⟩
  intro r r2 hr hr2 hcs hcp
  rw [halerts, honeS r hr hcs, honeP r2 hr2 hcp]
  rw [if_neg (by rw [WithTop.coe_lt_coe]; norm_num),
    if_neg (by rw [WithTop.coe_lt_coe]; norm_num)]
  rfl

/-- Concrete fairness batch: two states, both with outlier rate 1. -/
def fairStateRows : List (String × Bool) := [("CA", true), ("NY", true)]

/-- Concrete fairness batch: two providers, both with outlier rate 1. -/
def fairProviderRows : List (String × Bool) := [("P1", true), ("P2", true)]

/-- Helper: the state batch has group rates [1, 1]. -/
theorem groupRates_fairStateRows : groupRates fairStateRows = [1, 1] := by
  have hd : ((fairStateRows.map Prod.fst).dedup) = ["CA", "NY"] := by decide
  have hf1 : fairStateRows.filter (fun r => r.1 == "CA") = [("CA", true)] := by decide
  have hf2 : fairStateRows.filter (fun r => r.1 == "NY") = [("NY", true)] := by decide
  unfold groupRates
  rw [hd]
  norm_num [hf1, hf2, List.countP, List.countP.go]

/-- Helper: the provider batch has group rates [1, 1]. -/
theorem groupRates_fairProviderRows : groupRates fairProviderRows = [1, 1] := by
  have hd : ((fairProviderRows.map Prod.fst).dedup) = ["P1", "P2"] := by decide
  have hf1 : fairProviderRows.filter (fun r => r.1 == "P1") = [("P1", true)] := by decide
  have hf2 : fairProviderRows.filter (fun r => r.1 == "P2") = [("P2", true)] := by decide
  unfold groupRates
  rw [hd]
  norm_num [hf1, hf2, List.countP, List.countP.go]

/-- Witness for `fairness_ratio_and_alerts`: a batch where every group has
outlier rate 1 triggers no disparity alert. -/
theorem fairness_ratio_and_alerts_witness :
    generate_disparity_alerts
      (check_demographic_fairness (some fairStateRows) (some fairProviderRows)) = [] := by
  obtain ⟨sd, pd, -, -, -, -, -, -, -, -, -, hnone⟩ :=
    fairness_ratio_and_alerts fairStateRows fairProviderRows (by decide) (by decide)
  refine hnone 1 1 (by norm_num) (by norm_num) ?_ ?_
  · rw [groupRates_fairStateRows]
    intro x hx
    simpa using hx
  · rw [groupRates_fairProviderRows]
    intro x hx
    simpa using hx

/-- Helper: `strLe` is transitive. -/
theorem strLe_trans : ∀ a b c : String, strLe a b → strLe b c → strLe a c := by
  intro a b c h1 h2
  simp only [strLe, decide_eq_true_eq] at h1 h2 ⊢
  exact le_trans h1 h2

/-- Helper: `strLe` is total. -/
theorem strLe_total : ∀ a b : String, strLe a b || strLe b a := by
  intro a b
  simp only [strLe, Bool.or_eq_true, decide_eq_true_eq]
  exact le_total a b

/-- Helper: `strLe` is antisymmetric. -/
theorem strLe_antisymm : ∀ a b : String, strLe a b → strLe b a → a = b := by
  intro a b h1 h2
  simp only [strLe, decide_eq_true_eq] at h1 h2
  exact le_antisymm h1 h2

instance : IsAntisymm String (fun a b => strLe a b = true) :=
  ⟨strLe_antisymm⟩

/-- Helper: two lists of keys that are permutations of each other merge-sort
to the same sorted list. -/
theorem mergeSort_eq_of_perm (l1 l2 : List String) (h : l1.Perm l2) :
    l1.mergeSort strLe = l2.mergeSort strLe := by
  have hs1 := @List.sorted_mergeSort String strLe strLe_trans strLe_total l1
  have hs2 := @List.sorted_mergeSort String strLe strLe_trans strLe_total l2
  have hperm : (l1.mergeSort strLe).Perm (l2.mergeSort strLe) :=
    ((List.mergeSort_perm l1 strLe).trans h).trans (List.mergeSort_perm l2 strLe).symm
  exact List.eq_of_perm_of_sorted hperm hs1 hs2

/-- Helper: permuting a dict with distinct keys does not change any lookup. -/
theorem lookup_eq_of_perm (l1 l2 : ClaimDict) (h : l1.Perm l2) :
    (l1.map Prod.fst).Nodup → ∀ k, l1.lookup k = l2.lookup k := by
  induction h with
  | nil =>
    intro _ k
    rfl
  | cons x t ih =>
    intro hnd k
    obtain ⟨xk, xv⟩ := x
    simp only [List.map_cons, List.nodup_cons] at hnd
    simp only [List.lookup]
    cases hxk : (k == xk) with
    | true => rfl
    | false => exact ih hnd.2 k
  | swap x y t =>
    intro hnd k
    obtain ⟨xk, xv⟩ := x
    obtain ⟨yk, yv⟩ := y
    simp only [List.map_cons, List.nodup_cons, List.mem_cons] at hnd
    simp only [List.lookup]
    cases hky : (k == yk) with
    | true =>
      cases hkx : (k == xk) with
      | true =>
        exfalso
        have h1 := eq_of_beq hky
        have h2 := eq_of_beq hkx
        exact hnd.1 (Or.inl (by rw [← h1, ← h2]))
      | false => rfl
    | false =>
      cases hkx : (k == xk) with
      | true => rfl
      | false => rfl
  | trans h1 h2 ih1 ih2 =>
    intro hnd k
    rw [ih1 hnd k]
    exact ih2 ((h1.map Prod.fst).nodup hnd) k

/-- Helper: permuting a dict with distinct keys leaves the canonical
key-sorted serialization unchanged. -/
theorem json_dumps_sorted_eq_of_perm (c1 c2 : ClaimDict) (h : c1.Perm c2)
    (hnd : (c1.map Prod.fst).Nodup) :
    json_dumps_sorted c1 = json_dumps_sorted c2 := by
  unfold json_dumps_sorted
  have hkeys : (c1.map Prod.fst).mergeSort strLe = (c2.map Prod.fst).mergeSort strLe :=
    mergeSort_eq_of_perm _ _ (h.map Prod.fst)
  have hlook : ∀ k, c1.lookup k = c2.lookup k := lookup_eq_of_perm c1 c2 h hnd
  have hfun : (fun k => "\"" ++ k ++ "\": " ++ jvalSerialize ((c1.lookup k).getD JVal.null))
      = (fun k => "\"" ++ k ++ "\": " ++ jvalSerialize ((c2.lookup k).getD JVal.null)) :=
    funext (fun k => by rw [hlook k])
  rw [hkeys, hfun]

/-- C3: the audit hash is a function of the claim's field content only:
permuting the dict entries (any insertion order) and varying the activations,
the decision and the timestamp never change `audit_hash`; determinism across
runs holds by construction, the hash being a pure function of the key-sorted
serialization. -/
theorem audit_hash_content_only (c1 c2 : ClaimDict) (r1 r2 : List RuleActivation)
    (dec1 dec2 now1 now2 : String) (h : c1.Perm c2) (hnd : (c1.map Prod.fst).Nodup) :
    (create_audit_log c1 r1 dec1 now1).audit_hash
      = (create_audit_log c2 r2 dec2 now2).audit_hash := by
  show md5_hexdigest (json_dumps_sorted c1) = md5_hexdigest (json_dumps_sorted c2)
  rw [json_dumps_sorted_eq_of_perm c1 c2 h hnd]

/-- Concrete audit claim, one insertion order. -/
def auditClaimA : ClaimDict :=
  [("claim_id", JVal.str "CLM-9"), ("claim_amount", JVal.num 120),
   ("patient_state", JVal.str "CA")]

/-- The same claim content in a different insertion order. -/
def auditClaimB : ClaimDict :=
  [("patient_state", JVal.str "CA"), ("claim_id", JVal.str "CLM-9"),
   ("claim_amount", JVal.num 120)]

/-- Witness for `audit_hash_content_only` at two concrete permuted dicts with
different activations, decisions and timestamps. -/
theorem audit_hash_content_only_witness :
    auditClaimA.Perm auditClaimB ∧ (auditClaimA.map Prod.fst).Nodup ∧
    (create_audit_log auditClaimA [] "REVIEW" "2026-01-01T00:00:00").audit_hash
      = (create_audit_log auditClaimB [vc500HighAmount] "APPROVED"
          "2026-01-02T00:00:00").audit_hash :=
  ⟨by decide, by decide,
    audit_hash_content_only auditClaimA auditClaimB [] [vc500HighAmount]
      "REVIEW" "APPROVED" "2026-01-01T00:00:00" "2026-01-02T00:00:00"
      (by decide) (by decide)⟩

end InsuranceInterp
